import Mathlib

/-!
Verification of the `cameleon` GigE streaming core against its specification.

The definitions below are a shallow embedding of `src/cameleon/src/gige/stream_handle.rs`
and `src/cameleon/src/gige/mod.rs`.  Machine integers (`u32`, `u64`, `usize`) are
modelled as `Nat`; byte buffers (`Vec<u8>`, `&mut [u8]`) as `List Nat`; fallible Rust
code as `Except`; a possible Rust panic as an explicit `panic` outcome.  External
effects (the USB bulk endpoint, the byte-level leader/trailer parsers that live in the
`cameleon-device` crate, and the oneshot channels) are passed in as explicit oracle
arguments, so every function is a pure, executable Lean definition.
-/

namespace Cameleon

/-- Low-level libusb error variants, as enumerated by the `use gev::LibUsbError::{...}`
imports and match arms of `src/cameleon/src/gige/mod.rs` (lines 104-146). -/
inductive LibUsbError
  | Io
  | InvalidParam
  | Access
  | Overflow
  | Pipe
  | Interrupted
  | NoMem
  | NotSupported
  | BadDescriptor
  | Busy
  | Other
  | NoDevice
  | NotFound
  | Timeout
deriving DecidableEq, Repr

/-- The `gev::Error` transport error, as enumerated by the match arms of the two
`From<gev::Error>` impls in `src/cameleon/src/gige/mod.rs`. -/
inductive GevError
  | LibUsb (e : LibUsbError)
  | BufferIo
  | InvalidPacket
  | InvalidDevice
deriving DecidableEq, Repr

/-- Rendering of a `gev::Error` into a message string (the `err.into()` payload of the
`Io` arms).  The exact text is irrelevant to every claim; only the constructor shape of
the mapped error matters. -/
def gevErrorMsg : GevError → String
  | .LibUsb _ => "libusb error"
  | .BufferIo => "buffer io error"
  | .InvalidPacket => "invalid packet"
  | .InvalidDevice => "invalid device"

/-- The control-plane error type `ControlError`, with the variants used by
`src/cameleon/src/gige/mod.rs`. -/
inductive ControlError
  | Io (msg : String)
  | Busy
  | Disconnected
  | Timeout
  | InvalidDevice (msg : String)
deriving DecidableEq, Repr

/-- The stream-plane error type `StreamError`, with the variants used by
`src/cameleon/src/gige/stream_handle.rs` and §7 of the specification. -/
inductive StreamError
  | Io (msg : String)
  | Disconnected
  | Timeout
  | BufferTooSmall
  | InvalidPayload (msg : String)
  | InStreaming
  | Poisoned (msg : String)
deriving DecidableEq, Repr

/-- `impl From<gev::Error> for ControlError` (`src/cameleon/src/gige/mod.rs`, 104-126). -/
def controlErrorFrom (err : GevError) : ControlError :=
  match err with
  | .LibUsb u =>
    match u with
    | .Io | .InvalidParam | .Access | .Overflow | .Pipe | .Interrupted | .NoMem
    | .NotSupported | .BadDescriptor | .Other => ControlError.Io (gevErrorMsg err)
    | .Busy => ControlError.Busy
    | .NoDevice | .NotFound => ControlError.Disconnected
    | .Timeout => ControlError.Timeout
  | .BufferIo | .InvalidPacket => ControlError.Io (gevErrorMsg err)
  | .InvalidDevice => ControlError.InvalidDevice "invalid device"

/-- `impl From<gev::Error> for StreamError` (`src/cameleon/src/gige/mod.rs`, 128-146). -/
def streamErrorFrom (err : GevError) : StreamError :=
  match err with
  | .LibUsb u =>
    match u with
    | .Io | .InvalidParam | .Access | .Overflow | .Pipe | .Interrupted | .NoMem
    | .NotSupported | .BadDescriptor | .Busy | .Other => StreamError.Io (gevErrorMsg err)
    | .NoDevice | .NotFound => StreamError.Disconnected
    | .Timeout => StreamError.Timeout
  | _ => StreamError.Io (gevErrorMsg err)

/-- Common classification of the two error planes, used to compare the control-plane
and stream-plane mappings variant by variant. -/
inductive ErrKind
  | io
  | busy
  | disconnected
  | timeout
  | invalidDevice
  | bufferTooSmall
  | invalidPayload
  | inStreaming
  | poisoned
deriving DecidableEq, Repr

/-- Classification of a `ControlError` by variant. -/
def ControlError.kind : ControlError → ErrKind
  | .Io _ => .io
  | .Busy => .busy
  | .Disconnected => .disconnected
  | .Timeout => .timeout
  | .InvalidDevice _ => .invalidDevice

/-- Classification of a `StreamError` by variant. -/
def StreamError.kind : StreamError → ErrKind
  | .Io _ => .io
  | .Disconnected => .disconnected
  | .Timeout => .timeout
  | .BufferTooSmall => .bufferTooSmall
  | .InvalidPayload _ => .invalidPayload
  | .InStreaming => .inStreaming
  | .Poisoned _ => .poisoned

/-- The fatality test of the streaming loop,
`matches!(err, StreamError::Io(..) | StreamError::Disconnected)`
(`src/cameleon/src/gige/stream_handle.rs`, line 263). -/
def StreamError.isFatal : StreamError → Bool
  | .Io _ => true
  | .Disconnected => true
  | _ => false

/-- `StreamParams` (`src/cameleon/src/gige/stream_handle.rs`, 443-465); the `timeout`
duration is modelled as a `Nat` and never inspected. -/
structure StreamParams where
  leader_size : Nat
  trailer_size : Nat
  payload_size : Nat
  payload_count : Nat
  payload_final1_size : Nat
  payload_final2_size : Nat
  timeout : Nat
deriving DecidableEq, Repr

/-- `StreamParams::maximum_payload_size` (`stream_handle.rs`, 471-473). -/
def StreamParams.maximum_payload_size (p : StreamParams) : Nat :=
  p.payload_size * p.payload_count + p.payload_final1_size + p.payload_final2_size

/-- `gev_stream::PayloadType` as dispatched on in `PayloadBuilder::build`
(`stream_handle.rs`, 324-328). -/
inductive PayloadType
  | Image
  | ImageExtendedChunk
  | Chunk
deriving DecidableEq, Repr

/-- Modelled from the spec: the trailer yields `payload_status ∈ {Success, …}`; the
declaration of `gev_stream::PayloadStatus` lives in the `cameleon-device` crate outside
`src/`, so the non-`Success` variants are abstracted into one carrying a code. -/
inductive PayloadStatus
  | Success
  | Error (code : Nat)
deriving DecidableEq, Repr

/-- Rendering of a `PayloadStatus` by the `{:?}` debug formatter used in the
status-failure message of `PayloadBuilder::build` (`stream_handle.rs`, 313). -/
def PayloadStatus.debugFmt : PayloadStatus → String
  | .Success => "Success"
  | .Error code => "Error(" ++ toString code ++ ")"

/-- Fields of the generic `gev_stream::Leader` used by the streaming core:
`payload_type()` and `block_id()`. -/
structure LeaderData where
  payload_type : PayloadType
  block_id : Nat
deriving DecidableEq, Repr

/-- Fields of the generic `gev_stream::Trailer` used by the streaming core:
`payload_status()` and `valid_payload_size()`. -/
structure TrailerData where
  payload_status : PayloadStatus
  valid_payload_size : Nat
deriving DecidableEq, Repr

/-- Fields of `gev_stream::ImageLeader` and `gev_stream::ImageExtendedChunkLeader`
read by the payload builders: `width`, `x_offset`, `y_offset`, `pixel_format`,
`timestamp`.  The pixel format is abstracted to a code. -/
structure ImageLeaderData where
  width : Nat
  x_offset : Nat
  y_offset : Nat
  pixel_format : Nat
  timestamp : Nat
deriving DecidableEq, Repr

/-- Fields of `gev_stream::ImageTrailer` and `gev_stream::ImageExtendedChunkTrailer`
read by the payload builders: `actual_height`. -/
structure ImageTrailerData where
  actual_height : Nat
deriving DecidableEq, Repr

/-- Fields of `gev_stream::ChunkLeader` read by `build_chunk_payload`: `timestamp`. -/
structure ChunkLeaderData where
  timestamp : Nat
deriving DecidableEq, Repr

/-- `ImageInfo` (from `crate::payload`), as filled in by the payload builders. -/
structure ImageInfo where
  width : Nat
  height : Nat
  x_offset : Nat
  y_offset : Nat
  pixel_format : Nat
  image_size : Nat
deriving DecidableEq, Repr

/-- `Payload` (from `crate::payload`), the delivered unit. -/
structure Payload where
  id : Nat
  payload_type : PayloadType
  image_info : Option ImageInfo
  payload : List Nat
  valid_payload_size : Nat
  timestamp : Nat
deriving DecidableEq, Repr

/-- Outcome of a fallible embedded computation: success, a `StreamError`, or a Rust
panic (out-of-bounds slice, failed `unwrap`). -/
inductive Outcome (α : Type)
  | ok (a : α)
  | err (e : StreamError)
  | panic
deriving DecidableEq, Repr

/-- Big-endian `u32` read of the four bytes `buf[off..off+4]`, as in
`u32::from_be_bytes(self.payload_buf[current_offset..current_offset+4].try_into().unwrap())`
(`stream_handle.rs`, 375-379).  Returns `none` exactly when the slice access would be
out of bounds (a Rust panic). -/
def readU32be (buf : List Nat) (off : Nat) : Option Nat :=
  match buf.get? off, buf.get? (off + 1), buf.get? (off + 2), buf.get? (off + 3) with
  | some b0, some b1, some b2, some b3 => some (b0 * 16777216 + b1 * 65536 + b2 * 256 + b3)
  | _, _, _, _ => none

/-- The backward chunk walk of `PayloadBuilder::build_image_extended_payload`
(`stream_handle.rs`, 370-389), with `CHUNK_ID_LEN = CHUNK_SIZE_LEN = 4` inlined:
starting from `cursor = valid_payload_size`, subtract 4 (checked; underflow is the
"size field missing" error), read the 4-byte big-endian `data_size` at the new cursor
(out of bounds is a panic), subtract `data_size + 4` (checked; underflow is the
"chunk data size is smaller than specified size" error); stop with `data_size` when the
cursor reaches exactly 0, otherwise iterate. -/
def chunkWalk (buf : List Nat) (cursor : Nat) : Outcome Nat :=
  if _h4 : 4 ≤ cursor then
    match readU32be buf (cursor - 4) with
    | none => .panic
    | some data_size =>
      if h2 : data_size + 4 ≤ cursor - 4 then
        if cursor - 4 - (data_size + 4) = 0 then .ok data_size
        else chunkWalk buf (cursor - 4 - (data_size + 4))
      else
        .err (.InvalidPayload
          "failed to parse chunk data: chunk data size is smaller than specified size")
  else .err (.InvalidPayload "failed to parse chunk data: size field missing")
termination_by cursor
decreasing_by omega

/-- The chunk walk as the specification words it (§4.4 of the spec, and the sources of
claim C1): repeatedly read a 4-byte big-endian `chunk_data_size` just below the cursor
and subtract `chunk_data_size + 4` (the chunk id field) plus the 4-byte size field from
the cursor in one step; when the cursor reaches exactly 0 the last decoded
`chunk_data_size` is the image size; underflow while reading the size field is the
"size field missing" error, underflow while subtracting the chunk body is the
"chunk data size is smaller than specified size" error. -/
def chunkWalkSpec (buf : List Nat) (cursor : Nat) : Outcome Nat :=
  if _h4 : 4 ≤ cursor then
    match readU32be buf (cursor - 4) with
    | none => .panic
    | some data_size =>
      if h2 : data_size + 4 + 4 ≤ cursor then
        if cursor - (data_size + 4 + 4) = 0 then .ok data_size
        else chunkWalkSpec buf (cursor - (data_size + 4 + 4))
      else
        .err (.InvalidPayload
          "failed to parse chunk data: chunk data size is smaller than specified size")
  else .err (.InvalidPayload "failed to parse chunk data: size field missing")
termination_by cursor
decreasing_by omega

/-- Fuel-indexed variant of the chunk walk: identical to `chunkWalk`, except that it
gives up (returns `none`) after `fuel` iterations.  Used to state that the source loop
terminates within `cursor` iterations. -/
def chunkWalkFuel (fuel : Nat) (buf : List Nat) (cursor : Nat) : Option (Outcome Nat) :=
  match fuel with
  | 0 => none
  | fuel + 1 =>
    if 4 ≤ cursor then
      match readU32be buf (cursor - 4) with
      | none => some .panic
      | some data_size =>
        if data_size + 4 ≤ cursor - 4 then
          if cursor - 4 - (data_size + 4) = 0 then some (.ok data_size)
          else chunkWalkFuel fuel buf (cursor - 4 - (data_size + 4))
        else
          some (.err (.InvalidPayload
            "failed to parse chunk data: chunk data size is smaller than specified size"))
    else some (.err (.InvalidPayload "failed to parse chunk data: size field missing"))

/-- `PayloadBuilder` (`stream_handle.rs`, 301-306), flattened: the generic leader and
trailer are replaced by the fields the builder reads from them, and the fallible
`specific_leader_as` / `specific_trailer_as` byte-level conversions (whose parsers live
in `cameleon-device`, outside `src/`) are carried as `Except` oracle fields. -/
structure PayloadBuilder where
  payload_type : PayloadType
  block_id : Nat
  payload_status : PayloadStatus
  valid_payload_size : Nat
  read_payload_size : Nat
  payload_buf : List Nat
  image_leader : Except String ImageLeaderData
  image_trailer : Except String ImageTrailerData
  ext_leader : Except String ImageLeaderData
  ext_trailer : Except String ImageTrailerData
  chunk_leader : Except String ChunkLeaderData
  chunk_trailer : Except String Unit

/-- `PayloadBuilder::build_image_payload` (`stream_handle.rs`, 331-355). -/
def PayloadBuilder.build_image_payload (b : PayloadBuilder) : Outcome Payload :=
  match b.image_leader with
  | .error e => .err (.InvalidPayload e)
  | .ok leader =>
    match b.image_trailer with
    | .error e => .err (.InvalidPayload e)
    | .ok trailer =>
      .ok { id := b.block_id
            payload_type := .Image
            image_info := some { width := leader.width
                                 height := trailer.actual_height
                                 x_offset := leader.x_offset
                                 y_offset := leader.y_offset
                                 pixel_format := leader.pixel_format
                                 image_size := b.valid_payload_size }
            payload := b.payload_buf
            valid_payload_size := b.valid_payload_size
            timestamp := leader.timestamp }

/-- `PayloadBuilder::build_image_extended_payload` (`stream_handle.rs`, 357-408):
specialize the leader and trailer, run the backward chunk walk on the payload buffer to
extract the image size, and assemble the payload. -/
def PayloadBuilder.build_image_extended_payload (b : PayloadBuilder) : Outcome Payload :=
  match b.ext_leader with
  | .error e => .err (.InvalidPayload e)
  | .ok leader =>
    match b.ext_trailer with
    | .error e => .err (.InvalidPayload e)
    | .ok trailer =>
      match chunkWalk b.payload_buf b.valid_payload_size with
      | .panic => .panic
      | .err e => .err e
      | .ok image_size =>
        .ok { id := b.block_id
              payload_type := .ImageExtendedChunk
              image_info := some { width := leader.width
                                   height := trailer.actual_height
                                   x_offset := leader.x_offset
                                   y_offset := leader.y_offset
                                   pixel_format := leader.pixel_format
                                   image_size := image_size }
              payload := b.payload_buf
              valid_payload_size := b.valid_payload_size
              timestamp := leader.timestamp }

/-- `PayloadBuilder::build_chunk_payload` (`stream_handle.rs`, 410-425). -/
def PayloadBuilder.build_chunk_payload (b : PayloadBuilder) : Outcome Payload :=
  match b.chunk_leader with
  | .error e => .err (.InvalidPayload e)
  | .ok leader =>
    match b.chunk_trailer with
    | .error e => .err (.InvalidPayload e)
    | .ok _ =>
      .ok { id := b.block_id
            payload_type := .Chunk
            image_info := none
            payload := b.payload_buf
            valid_payload_size := b.valid_payload_size
            timestamp := leader.timestamp }

/-- `PayloadBuilder::build` (`stream_handle.rs`, 309-329): validate the trailer status,
validate `valid_payload_size` against the bytes actually read, then dispatch on the
leader's payload type. -/
def PayloadBuilder.build (b : PayloadBuilder) : Outcome Payload :=
  if b.payload_status ≠ PayloadStatus.Success then
    .err (.InvalidPayload ("trailer status indicates error: " ++ b.payload_status.debugFmt))
  else if b.read_payload_size < b.valid_payload_size then
    .err (.InvalidPayload
      ("the actual read payload size is smaller than the size specified in the trailer: expected "
        ++ toString b.valid_payload_size ++ ", but got " ++ toString b.read_payload_size))
  else
    match b.payload_type with
    | .Image => b.build_image_payload
    | .ImageExtendedChunk => b.build_image_extended_payload
    | .Chunk => b.build_chunk_payload

/-- Writing received bytes into the front of a buffer: the result has the same length
as `buf`, starts with `data` (truncated to the buffer length) and keeps the tail of
`buf` beyond `data.length`. -/
def overlay (data buf : List Nat) : List Nat :=
  (data ++ buf.drop data.length).take buf.length

/-- `Vec::resize(n, 0)` as applied to a recycled payload buffer
(`stream_handle.rs`, 248-250): truncate or extend with zeros to length `n`. -/
def resizeTo (buf : List Nat) (n : Nat) : List Nat :=
  buf.take n ++ List.replicate (n - buf.length) 0

/-- Result of a read primitive: its outcome, the buffer afterwards, and whether the
underlying channel was actually touched (a receive was attempted). -/
structure ReadOut (α : Type) where
  outcome : Outcome α
  buf : List Nat
  touched : Bool
deriving Repr, DecidableEq

/-- The free function `recv` (`stream_handle.rs`, 580-597): length 0 short-circuits to
`Ok(0)` without touching the channel; a buffer shorter than `len` is `BufferTooSmall`
without touching the channel; otherwise the underlying `gev::ReceiveChannel::recv` runs,
its transport errors mapped through `From<gev::Error> for StreamError`.  The bytes the
device makes available are the oracle `chan`; on success the first `len` of them are
written into the front of the buffer and the byte count is `min chan.length len`. -/
def recv (buf : List Nat) (len : Nat) (chan : Except GevError (List Nat)) : ReadOut Nat :=
  if len = 0 then { outcome := .ok 0, buf := buf, touched := false }
  else if buf.length < len then { outcome := .err .BufferTooSmall, buf := buf, touched := false }
  else
    match chan with
    | .error e => { outcome := .err (streamErrorFrom e), buf := buf, touched := true }
    | .ok data =>
      { outcome := .ok (min data.length len), buf := overlay (data.take len) buf, touched := true }

/-- The free function `read_leader` (`stream_handle.rs`, 528-537): `recv` of
`params.leader_size` bytes into `buf`, then `gev_stream::Leader::parse(buf)` (a pure
byte-level parser living outside `src/`, passed as the oracle function `parse`); parse
failures map to `InvalidPayload`. -/
def read_leader (params : StreamParams) (buf : List Nat) (chan : Except GevError (List Nat))
    (parse : List Nat → Except String LeaderData) : ReadOut LeaderData :=
  let r := recv buf params.leader_size chan
  match r.outcome with
  | .panic => { outcome := .panic, buf := r.buf, touched := r.touched }
  | .err e => { outcome := .err e, buf := r.buf, touched := r.touched }
  | .ok _ =>
    match parse r.buf with
    | .ok l => { outcome := .ok l, buf := r.buf, touched := r.touched }
    | .error e => { outcome := .err (.InvalidPayload e), buf := r.buf, touched := r.touched }

/-- The free function `read_trailer` (`stream_handle.rs`, 568-578): `recv` of
`params.trailer_size` bytes, then `gev_stream::Trailer::parse(buf)`; parse failures map
to `InvalidPayload` prefixed with "invalid trailer: ". -/
def read_trailer (params : StreamParams) (buf : List Nat) (chan : Except GevError (List Nat))
    (parse : List Nat → Except String TrailerData) : ReadOut TrailerData :=
  let r := recv buf params.trailer_size chan
  match r.outcome with
  | .panic => { outcome := .panic, buf := r.buf, touched := r.touched }
  | .err e => { outcome := .err e, buf := r.buf, touched := r.touched }
  | .ok _ =>
    match parse r.buf with
    | .ok t => { outcome := .ok t, buf := r.buf, touched := r.touched }
    | .error e => { outcome := .err (.InvalidPayload ("invalid trailer: " ++ e)), buf := r.buf,
                    touched := r.touched }

/-- The free function `read_payload` (`stream_handle.rs`, 539-566): it submits
`payload_count` slices of `payload_size`, then the nonzero final1/final2 slices, of one
buffer to the async pool and polls them to completion.  The slice accesses panic exactly
when the buffer is shorter than `maximum_payload_size` (the largest submitted slice ends
there).  The submit/poll outcomes are abstracted into the oracle `poll` — a transport
error (mapped through `From<gev::Error> for StreamError`) or the accumulated byte count
— and `data`, the bytes the device wrote into the buffer.  This function never checks
the buffer length against the plan, so it can never produce `BufferTooSmall`. -/
def read_payload (params : StreamParams) (buf : List Nat) (poll : Except GevError Nat)
    (data : List Nat) : ReadOut Nat :=
  if buf.length < params.maximum_payload_size then
    { outcome := .panic, buf := buf, touched := true }
  else
    match poll with
    | .error e => { outcome := .err (streamErrorFrom e), buf := buf, touched := true }
    | .ok n =>
      { outcome := .ok n, buf := overlay (data.take params.maximum_payload_size) buf,
        touched := true }

/-- The oracle inputs consumed by one iteration of `StreamingLoop::run`
(`stream_handle.rs`, 214-298): the cancellation one-shot, the recycled-buffer
`try_recv`, the channel bytes and parse results of the three reads, the
specialization results used by the payload builder, and whether the consumer queue
accepts the delivered payload. -/
structure WorkerOracle where
  cancelled : Bool
  recycled : Option (List Nat)
  leaderChan : Except GevError (List Nat)
  leaderParse : List Nat → Except String LeaderData
  payloadPoll : Except GevError Nat
  payloadData : List Nat
  trailerChan : Except GevError (List Nat)
  trailerParse : List Nat → Except String TrailerData
  image_leader : Except String ImageLeaderData
  image_trailer : Except String ImageTrailerData
  ext_leader : Except String ImageLeaderData
  ext_trailer : Except String ImageTrailerData
  chunk_leader : Except String ChunkLeaderData
  chunk_trailer : Except String Unit
  sendOk : Bool

/-- Observable result of one iteration of `StreamingLoop::run`: whether the loop
breaks, whether the iteration panicked, the payload buffer retained in
`payload_buf_opt` for the next iteration, the error the worker attempted to send to the
consumer (`sender.try_send(Err(..))`), and the payload accepted by the consumer. -/
structure IterOut where
  breaks : Bool
  panicked : Bool
  payload_buf_opt : Option (List Nat)
  sentErr : Option StreamError
  delivered : Option Payload
deriving Repr, DecidableEq

/-- The payload-buffer acquisition of the worker (`stream_handle.rs`, 244-257): reuse
the retained buffer as is; otherwise take a recycled buffer from the consumer channel,
resizing it to `maximum_payload_size` when its length differs; otherwise allocate a
fresh zeroed buffer of `maximum_payload_size`. -/
def acquireBuf (mps : Nat) (payload_buf_opt : Option (List Nat))
    (recycled : Option (List Nat)) : List Nat :=
  match payload_buf_opt with
  | some b => b
  | none =>
    match recycled with
    | some b => if b.length = mps then b else resizeTo b mps
    | none => List.replicate mps 0

/-- Assembly of the `PayloadBuilder` from the iteration's reads
(`stream_handle.rs`, 280-287), with the specialization oracles attached. -/
def mkBuilder (leader : LeaderData) (trailer : TrailerData) (read_payload_size : Nat)
    (payload_buf : List Nat) (o : WorkerOracle) : PayloadBuilder :=
  { payload_type := leader.payload_type
    block_id := leader.block_id
    payload_status := trailer.payload_status
    valid_payload_size := trailer.valid_payload_size
    read_payload_size := read_payload_size
    payload_buf := payload_buf
    image_leader := o.image_leader
    image_trailer := o.image_trailer
    ext_leader := o.ext_leader
    ext_trailer := o.ext_trailer
    chunk_leader := o.chunk_leader
    chunk_trailer := o.chunk_trailer }

/-- One iteration of the worker loop `StreamingLoop::run` (`stream_handle.rs`,
220-293).  `trailer_buf` and `leader_buf` are the worker's scratch buffers, allocated
at loop entry with lengths `trailer_size` and `leader_size`; note that, as in the
source, the leader read receives `trailer_buf` and the trailer read receives
`leader_buf`.  A leader-read failure is reported to the consumer only when fatal
(`Io` or `Disconnected`); payload-read and trailer-read failures go through the
`unwrap_or_continue!` macro, which always attempts to report; all three retain the
payload buffer.  A build failure is reported and does not retain the buffer.  A built
payload is offered to the consumer with a non-blocking send. -/
def runIteration (params : StreamParams) (trailer_buf leader_buf : List Nat)
    (payload_buf_opt : Option (List Nat)) (o : WorkerOracle) : IterOut :=
  if o.cancelled then
    { breaks := true, panicked := false, payload_buf_opt := payload_buf_opt,
      sentErr := none, delivered := none }
  else
    let payload_buf := acquireBuf params.maximum_payload_size payload_buf_opt o.recycled
    match (Cameleon.read_leader params trailer_buf o.leaderChan o.leaderParse).outcome with
    | .panic =>
      { breaks := false, panicked := true, payload_buf_opt := none,
        sentErr := none, delivered := none }
    | .err e =>
      { breaks := false, panicked := false, payload_buf_opt := some payload_buf,
        sentErr := if e.isFatal then some e else none, delivered := none }
    | .ok leader =>
      let pr := Cameleon.read_payload params payload_buf o.payloadPoll o.payloadData
      match pr.outcome with
      | .panic =>
        { breaks := false, panicked := true, payload_buf_opt := none,
          sentErr := none, delivered := none }
      | .err e =>
        { breaks := false, panicked := false, payload_buf_opt := some pr.buf,
          sentErr := some e, delivered := none }
      | .ok read_payload_size =>
        match (Cameleon.read_trailer params leader_buf o.trailerChan o.trailerParse).outcome with
        | .panic =>
          { breaks := false, panicked := true, payload_buf_opt := none,
            sentErr := none, delivered := none }
        | .err e =>
          { breaks := false, panicked := false, payload_buf_opt := some pr.buf,
            sentErr := some e, delivered := none }
        | .ok trailer =>
          match (mkBuilder leader trailer read_payload_size pr.buf o).build with
          | .panic =>
            { breaks := false, panicked := true, payload_buf_opt := none,
              sentErr := none, delivered := none }
          | .err e =>
            { breaks := false, panicked := false, payload_buf_opt := none,
              sentErr := some e, delivered := none }
          | .ok payload =>
            { breaks := false, panicked := false, payload_buf_opt := none,
              sentErr := none, delivered := if o.sendOk then some payload else none }

/-- The mutable state of a `StreamHandle` (`stream_handle.rs`, 27-34): the discovered
parameters and whether the two one-shot endpoints (`cancellation_tx`, `completion_rx`)
are present.  The shared receive channel is kept behind oracles in the operations. -/
structure StreamHandle where
  params : StreamParams
  cancellation_tx : Bool
  completion_rx : Bool
deriving DecidableEq, Repr

/-- `StreamHandle::is_loop_running` (`stream_handle.rs`, 185-188): the completion
receiver is present. -/
def StreamHandle.is_loop_running (s : StreamHandle) : Bool :=
  s.completion_rx

/-- The invariant asserted by the `debug_assert_eq!` in `is_loop_running`: the
cancellation sender is present iff the completion receiver is. -/
def StreamHandle.signalInvariant (s : StreamHandle) : Prop :=
  s.cancellation_tx = s.completion_rx

/-- `StreamHandle::start_streaming_loop` (`stream_handle.rs`, 132-166).  The parameter
discovery `StreamParams::from_control(ctrl)` — a sequence of register reads — is the
oracle `discovered`; its failure becomes an `Io` error.  Discovery runs and overwrites
`self.params` before the running check; on a successful start both one-shot endpoints
are installed and the worker thread is spawned. -/
def StreamHandle.start_streaming_loop (s : StreamHandle)
    (discovered : Except String StreamParams) : Except StreamError Unit × StreamHandle :=
  match discovered with
  | .error e => (.error (.Io ("failed to setup streaming parameters: " ++ e)), s)
  | .ok p =>
    let s1 : StreamHandle := { s with params := p }
    if s1.is_loop_running then (.error .InStreaming, s1)
    else (.ok (), { s1 with cancellation_tx := true, completion_rx := true })

/-- `StreamHandle::stop_streaming_loop` (`stream_handle.rs`, 168-183).  When the loop
is running, both one-shot endpoints are taken out of the state first; then the
cancellation signal is sent — `oneshot::Sender::send` fails iff the worker end has been
dropped (`workerExited`), which becomes a `Poisoned` error; otherwise the call blocks
on the completion one-shot, whose result is the oracle `completion`. -/
def StreamHandle.stop_streaming_loop (s : StreamHandle) (workerExited : Bool)
    (completion : Except String Unit) : Except StreamError Unit × StreamHandle :=
  if s.is_loop_running then
    let s1 : StreamHandle := { s with cancellation_tx := false, completion_rx := false }
    if workerExited then
      (.error (.Poisoned "failed to send cancellation signal to streaming loop"), s1)
    else
      match completion with
      | .ok _ => (.ok (), s1)
      | .error e => (.error (.Poisoned e), s1)
  else (.ok (), s)

/-- `StreamHandle::close` (`stream_handle.rs`, 120-130): stop the streaming loop if it
is running (propagating its error), then close the inner receive channel.  Acquiring
the lock and closing the channel are abstracted into the oracle `innerClose` (a
`Poisoned` or mapped transport error on failure). -/
def StreamHandle.close (s : StreamHandle) (workerExited : Bool)
    (completion : Except String Unit) (innerClose : Except StreamError Unit) :
    Except StreamError Unit × StreamHandle :=
  if s.is_loop_running then
    match s.stop_streaming_loop workerExited completion with
    | (.error e, s1) => (.error e, s1)
    | (.ok _, s1) =>
      match innerClose with
      | .ok _ => (.ok (), s1)
      | .error e => (.error e, s1)
  else
    match innerClose with
    | .ok _ => (.ok (), s)
    | .error e => (.error e, s)

/-- `StreamHandle::read_leader` (`stream_handle.rs`, 50-60): while the loop is running
it fails with `InStreaming` before acquiring the lock, so the channel is untouched and
the caller's buffer unchanged; otherwise the mutex is acquired (`lock`, whose poisoning
becomes a `Poisoned` error) and the free `read_leader` runs. -/
def StreamHandle.read_leader (s : StreamHandle) (buf : List Nat) (lock : Except String Unit)
    (chan : Except GevError (List Nat)) (parse : List Nat → Except String LeaderData) :
    ReadOut LeaderData :=
  if s.is_loop_running then { outcome := .err .InStreaming, buf := buf, touched := false }
  else
    match lock with
    | .error cause => { outcome := .err (.Poisoned cause), buf := buf, touched := false }
    | .ok _ => Cameleon.read_leader s.params buf chan parse

/-- `StreamHandle::read_payload` (`stream_handle.rs`, 62-73): same gating as
`read_leader`, delegating to the free `read_payload`. -/
def StreamHandle.read_payload (s : StreamHandle) (buf : List Nat) (lock : Except String Unit)
    (poll : Except GevError Nat) (data : List Nat) : ReadOut Nat :=
  if s.is_loop_running then { outcome := .err .InStreaming, buf := buf, touched := false }
  else
    match lock with
    | .error cause => { outcome := .err (.Poisoned cause), buf := buf, touched := false }
    | .ok _ => Cameleon.read_payload s.params buf poll data

/-- `StreamHandle::read_trailer` (`stream_handle.rs`, 78-88): same gating as
`read_leader`, delegating to the free `read_trailer`. -/
def StreamHandle.read_trailer (s : StreamHandle) (buf : List Nat) (lock : Except String Unit)
    (chan : Except GevError (List Nat)) (parse : List Nat → Except String TrailerData) :
    ReadOut TrailerData :=
  if s.is_loop_running then { outcome := .err .InStreaming, buf := buf, touched := false }
  else
    match lock with
    | .error cause => { outcome := .err (.Poisoned cause), buf := buf, touched := false }
    | .ok _ => Cameleon.read_trailer s.params buf chan parse


/-! Helper lemmas: a step characterization of the backward chunk walk, used both to
relate it to the specification's description and to prove panic-freedom and the
iteration bound. -/

theorem chunkWalk_small (buf : List Nat) (cursor : Nat) (h : cursor < 4) :
    chunkWalk buf cursor =
      .err (.InvalidPayload "failed to parse chunk data: size field missing") := by
  rw [chunkWalk]
  simp [Nat.not_le.mpr h]

theorem chunkWalk_oob (buf : List Nat) (cursor : Nat) (h : 4 ≤ cursor)
    (hr : readU32be buf (cursor - 4) = none) : chunkWalk buf cursor = .panic := by
  rw [chunkWalk]
  simp [h, hr]

theorem chunkWalk_underflow (buf : List Nat) (cursor : Nat) (h : 4 ≤ cursor) (ds : Nat)
    (hr : readU32be buf (cursor - 4) = some ds) (h2 : ¬ ds + 4 ≤ cursor - 4) :
    chunkWalk buf cursor = .err (.InvalidPayload
      "failed to parse chunk data: chunk data size is smaller than specified size") := by
  rw [chunkWalk]
  simp [h, hr, h2]

theorem chunkWalk_done (buf : List Nat) (cursor : Nat) (h : 4 ≤ cursor) (ds : Nat)
    (hr : readU32be buf (cursor - 4) = some ds) (h2 : ds + 4 ≤ cursor - 4)
    (h0 : cursor - 4 - (ds + 4) = 0) : chunkWalk buf cursor = .ok ds := by
  rw [chunkWalk]
  simp [h, hr, h2, h0]

theorem chunkWalk_step (buf : List Nat) (cursor : Nat) (h : 4 ≤ cursor) (ds : Nat)
    (hr : readU32be buf (cursor - 4) = some ds) (h2 : ds + 4 ≤ cursor - 4)
    (h0 : cursor - 4 - (ds + 4) ≠ 0) :
    chunkWalk buf cursor = chunkWalk buf (cursor - 4 - (ds + 4)) := by
  rw [chunkWalk]
  simp [h, hr, h2, h0]

theorem chunkWalkSpec_eq (buf : List Nat) :
    ∀ cursor : Nat, chunkWalk buf cursor = chunkWalkSpec buf cursor := by
  intro cursor
  induction cursor using Nat.strong_induction_on with
  | _ cursor ih =>
    by_cases h4 : 4 ≤ cursor
    · rw [chunkWalk, chunkWalkSpec]
      cases hr : readU32be buf (cursor - 4) with
      | none => simp [h4, hr]
      | some ds =>
        by_cases h2 : ds + 4 ≤ cursor - 4
        · have h2' : ds + 4 + 4 ≤ cursor := by omega
          have heq : cursor - 4 - (ds + 4) = cursor - (ds + 4 + 4) := by omega
          by_cases h0 : cursor - 4 - (ds + 4) = 0
          · have h0' : cursor - (ds + 4 + 4) = 0 := by omega
            simp [h4, hr, h2, h2', h0, h0']
          · have h0' : ¬ cursor - (ds + 4 + 4) = 0 := by omega
            have hrec := ih (cursor - 4 - (ds + 4)) (by omega)
            simp [h4, hr, h2, h2', h0, h0']
            rw [← heq]
            exact hrec
        · have h2' : ¬ ds + 4 + 4 ≤ cursor := by omega
          simp [h4, hr, h2, h2']
    · rw [chunkWalk, chunkWalkSpec]
      simp [h4]

theorem readU32be_isSome (buf : List Nat) (off : Nat) (h : off + 4 ≤ buf.length) :
    ∃ ds, readU32be buf off = some ds := by
  unfold readU32be
  have h0 : off < buf.length := by omega
  have h1 : off + 1 < buf.length := by omega
  have h2 : off + 2 < buf.length := by omega
  have h3 : off + 3 < buf.length := by omega
  rw [List.get?_eq_get h0, List.get?_eq_get h1, List.get?_eq_get h2, List.get?_eq_get h3]
  exact ⟨_, rfl⟩

theorem chunkWalk_no_panic (buf : List Nat) : ∀ cursor : Nat, cursor ≤ buf.length →
    chunkWalk buf cursor ≠ .panic := by
  intro cursor
  induction cursor using Nat.strong_induction_on with
  | _ cursor ih =>
    intro hle
    by_cases h4 : 4 ≤ cursor
    · obtain ⟨ds, hr⟩ := readU32be_isSome buf (cursor - 4) (by omega)
      by_cases h2 : ds + 4 ≤ cursor - 4
      · by_cases h0 : cursor - 4 - (ds + 4) = 0
        · rw [chunkWalk_done buf cursor h4 ds hr h2 h0]
          intro hc; cases hc
        · rw [chunkWalk_step buf cursor h4 ds hr h2 h0]
          exact ih _ (by omega) (by omega)
      · rw [chunkWalk_underflow buf cursor h4 ds hr h2]
        intro hc; cases hc
    · rw [chunkWalk_small buf cursor (by omega)]
      intro hc; cases hc

theorem chunkWalkFuel_eq (buf : List Nat) : ∀ cursor fuel : Nat, cursor < fuel →
    chunkWalkFuel fuel buf cursor = some (chunkWalk buf cursor) := by
  intro cursor
  induction cursor using Nat.strong_induction_on with
  | _ cursor ih =>
    intro fuel hle
    match fuel with
    | 0 => omega
    | fuel + 1 =>
      by_cases h4 : 4 ≤ cursor
      · cases hr : readU32be buf (cursor - 4) with
        | none =>
          rw [chunkWalk_oob buf cursor h4 hr]
          simp [chunkWalkFuel, h4, hr]
        | some ds =>
          by_cases h2 : ds + 4 ≤ cursor - 4
          · by_cases h0 : cursor - 4 - (ds + 4) = 0
            · rw [chunkWalk_done buf cursor h4 ds hr h2 h0]
              simp [chunkWalkFuel, h4, hr, h2, h0]
            · rw [chunkWalk_step buf cursor h4 ds hr h2 h0]
              have hrec := ih (cursor - 4 - (ds + 4)) (by omega) fuel (by omega)
              simp [chunkWalkFuel, h4, hr, h2, h0, hrec]
          · rw [chunkWalk_underflow buf cursor h4 ds hr h2]
            simp [chunkWalkFuel, h4, hr, h2]
      · rw [chunkWalk_small buf cursor (by omega)]
        simp [chunkWalkFuel, h4]

/-- Claim C1: for every `ImageExtendedChunk` block that passes the status and size
validations, `build_image_extended_payload` extracts the image size by the backward
chunk walk described in the specification (`chunkWalkSpec`): it repeatedly reads a
4-byte big-endian `chunk_data_size` just below the cursor and subtracts
`chunk_data_size + 4` (the chunk id field) plus the 4-byte size field from the cursor;
when the cursor reaches exactly 0 the last decoded `chunk_data_size` is returned as
`image_info.image_size`; underflow while reading the size field (in particular whenever
`valid_payload_size < 4`) yields the "size field missing" `InvalidPayload`, and
underflow while subtracting the chunk body yields the "chunk data size is smaller than
specified size" `InvalidPayload`, which `build` propagates. -/
theorem claim_C1 :
    (∀ buf cursor, chunkWalk buf cursor = chunkWalkSpec buf cursor) ∧
    (∀ buf cursor, cursor < 4 → chunkWalk buf cursor =
      .err (.InvalidPayload "failed to parse chunk data: size field missing")) ∧
    (∀ b : PayloadBuilder, b.payload_type = .ImageExtendedChunk →
      b.payload_status = .Success → b.valid_payload_size ≤ b.read_payload_size →
      ∀ l t, b.ext_leader = .ok l → b.ext_trailer = .ok t →
        (∀ sz, chunkWalk b.payload_buf b.valid_payload_size = .ok sz →
          b.build = .ok ⟨b.block_id, .ImageExtendedChunk,
            some ⟨l.width, t.actual_height, l.x_offset, l.y_offset, l.pixel_format, sz⟩,
            b.payload_buf, b.valid_payload_size, l.timestamp⟩) ∧
        (∀ e, chunkWalk b.payload_buf b.valid_payload_size = .err e →
          b.build = .err e)) := by
  refine ⟨chunkWalkSpec_eq, fun buf cursor h => chunkWalk_small buf cursor h, ?_⟩
  intro b htype hstatus hle l t hl ht
  constructor
  · intro sz hw
    simp [PayloadBuilder.build, PayloadBuilder.build_image_extended_payload,
      hstatus, Nat.not_lt.mpr hle, htype, hl, ht, hw]
  · intro e hw
    simp [PayloadBuilder.build, PayloadBuilder.build_image_extended_payload,
      hstatus, Nat.not_lt.mpr hle, htype, hl, ht, hw]

/-- Witness for claim C1: a concrete two-record extended-chunk buffer (image chunk of
data size 1, trailing chunk of data size 0, total 17 bytes) builds successfully with
`image_size = 1`, and `valid_payload_size = 3` yields the "size field missing" error. -/
theorem claim_C1_witness :
    PayloadBuilder.build ⟨.ImageExtendedChunk, 7, .Success, 17, 17,
        [9, 9, 9, 9, 5, 0, 0, 0, 1, 8, 8, 8, 8, 0, 0, 0, 0],
        .error "no", .error "no", .ok ⟨640, 1, 2, 3, 123456⟩, .ok ⟨480⟩,
        .error "no", .error "no"⟩ =
      .ok ⟨7, .ImageExtendedChunk, some ⟨640, 480, 1, 2, 3, 1⟩,
        [9, 9, 9, 9, 5, 0, 0, 0, 1, 8, 8, 8, 8, 0, 0, 0, 0], 17, 123456⟩ ∧
    chunkWalk [0, 0, 0] 3 =
      .err (.InvalidPayload "failed to parse chunk data: size field missing") := by
  have hf := chunkWalkFuel_eq [9, 9, 9, 9, 5, 0, 0, 0, 1, 8, 8, 8, 8, 0, 0, 0, 0] 17 18
    (by omega)
  have hv : chunkWalkFuel 18 [9, 9, 9, 9, 5, 0, 0, 0, 1, 8, 8, 8, 8, 0, 0, 0, 0] 17 =
      some (.ok 1) := by decide
  rw [hv] at hf
  have hw := (Option.some_inj.mp hf).symm
  exact ⟨(claim_C1.2.2 _ rfl rfl (by decide) _ _ rfl rfl).1 1 hw,
    claim_C1.2.1 [0, 0, 0] 3 (by decide)⟩

/-- Claim C10: under the precondition that the trailer's claimed size does not exceed
the buffer (which on the `build` path follows from the prior size validation whenever
`read_payload_size ≤ payload_buf.length`), the backward chunk walk never reads out of
bounds and never panics; `build` itself never panics when
`read_payload_size ≤ payload_buf.length`; and the walk terminates, completing within
`cursor` iterations (the cursor strictly decreases, so `fuel > cursor` suffices). -/
theorem claim_C10 :
    (∀ buf cursor, cursor ≤ buf.length → chunkWalk buf cursor ≠ .panic) ∧
    (∀ b : PayloadBuilder, b.read_payload_size ≤ b.payload_buf.length →
      b.build ≠ .panic) ∧
    (∀ buf cursor fuel, cursor < fuel →
      chunkWalkFuel fuel buf cursor = some (chunkWalk buf cursor)) := by
  refine ⟨chunkWalk_no_panic, ?_, fun buf => chunkWalkFuel_eq buf⟩
  intro b hlen
  unfold PayloadBuilder.build
  split
  · intro hc; cases hc
  split
  · intro hc; cases hc
  next hsize =>
    split
    · unfold PayloadBuilder.build_image_payload
      split
      · intro hc; cases hc
      split
      · intro hc; cases hc
      · intro hc; cases hc
    · unfold PayloadBuilder.build_image_extended_payload
      split
      · intro hc; cases hc
      split
      · intro hc; cases hc
      · split
        next hw =>
          exfalso
          exact chunkWalk_no_panic b.payload_buf b.valid_payload_size (by omega) hw
        · intro hc; cases hc
        · intro hc; cases hc
    · unfold PayloadBuilder.build_chunk_payload
      split
      · intro hc; cases hc
      split
      · intro hc; cases hc
      · intro hc; cases hc

/-- Witness for claim C10: panic-freedom of the walk on a concrete 8-byte buffer at
cursor 8, panic-freedom of `build` on a concrete chunk block, and the fuel bound at a
concrete input. -/
theorem claim_C10_witness :
    chunkWalk (List.replicate 8 0) 8 ≠ .panic ∧
    PayloadBuilder.build ⟨.Chunk, 0, .Success, 0, 0, [],
        .error "no", .error "no", .error "no", .error "no",
        .ok ⟨5⟩, .ok ()⟩ ≠ .panic ∧
    chunkWalkFuel 9 (List.replicate 8 0) 8 = some (chunkWalk (List.replicate 8 0) 8) :=
  ⟨claim_C10.1 _ 8 (by decide), claim_C10.2.1 _ (by decide),
    claim_C10.2.2 (List.replicate 8 0) 8 9 (by decide)⟩


/-- Claim C7, counterexample: at `gev::Error::InvalidDevice` the two planes disagree
(`ControlError::InvalidDevice` versus `StreamError::Io`) although the error is not
device-busy, so the stream-plane classification does not agree with the control-plane
classification for every transport error with device-busy as the only exception. -/
theorem claim_C7_counterexample :
    (controlErrorFrom .InvalidDevice).kind = ErrKind.invalidDevice ∧
    (streamErrorFrom .InvalidDevice).kind = ErrKind.io ∧
    GevError.InvalidDevice ≠ GevError.LibUsb .Busy ∧
    ¬ (∀ e : GevError, e ≠ .LibUsb .Busy →
        (streamErrorFrom e).kind = (controlErrorFrom e).kind) := by
  refine ⟨rfl, rfl, by decide, fun h => ?_⟩
  have hc := h .InvalidDevice (by decide)
  simp [controlErrorFrom, streamErrorFrom, ControlError.kind, StreamError.kind] at hc

/-- Claim C7, amended: the stream-plane classification agrees with the control-plane
classification for every transport error except device-busy and invalid-device, both
of which map to `Io` on the stream plane; I/O-class errors map to `Io`,
no-device/not-found to `Disconnected`, and timeout to `Timeout` on both planes. -/
theorem claim_C7_amended :
    (∀ e : GevError, e ≠ .LibUsb .Busy → e ≠ .InvalidDevice →
      (streamErrorFrom e).kind = (controlErrorFrom e).kind) ∧
    (streamErrorFrom (.LibUsb .Busy)).kind = ErrKind.io ∧
    (streamErrorFrom .InvalidDevice).kind = ErrKind.io ∧
    (∀ u : LibUsbError, u = .NoDevice ∨ u = .NotFound →
      (controlErrorFrom (.LibUsb u)).kind = ErrKind.disconnected ∧
      (streamErrorFrom (.LibUsb u)).kind = ErrKind.disconnected) ∧
    (controlErrorFrom (.LibUsb .Timeout)).kind = ErrKind.timeout ∧
    (streamErrorFrom (.LibUsb .Timeout)).kind = ErrKind.timeout := by
  refine ⟨?_, rfl, rfl, ?_, rfl, rfl⟩
  · intro e h1 h2
    cases e with
    | LibUsb u =>
      cases u with
      | Busy => exact absurd rfl h1
      | Io => rfl
      | InvalidParam => rfl
      | Access => rfl
      | Overflow => rfl
      | Pipe => rfl
      | Interrupted => rfl
      | NoMem => rfl
      | NotSupported => rfl
      | BadDescriptor => rfl
      | Other => rfl
      | NoDevice => rfl
      | NotFound => rfl
      | Timeout => rfl
    | BufferIo => rfl
    | InvalidPacket => rfl
    | InvalidDevice => exact absurd rfl h2
  · intro u hu
    rcases hu with h | h
    · subst h; exact ⟨rfl, rfl⟩
    · subst h; exact ⟨rfl, rfl⟩

/-- Witness for the amended claim C7: agreement at the concrete I/O-class error
`LibUsbError::Pipe` and the disconnect classification at `NoDevice`. -/
theorem claim_C7_amended_witness :
    (streamErrorFrom (.LibUsb .Pipe)).kind = (controlErrorFrom (.LibUsb .Pipe)).kind ∧
    (controlErrorFrom (.LibUsb .NoDevice)).kind = ErrKind.disconnected ∧
    (streamErrorFrom (.LibUsb .NoDevice)).kind = ErrKind.disconnected :=
  ⟨claim_C7_amended.1 (.LibUsb .Pipe) (by decide) (by decide),
    claim_C7_amended.2.2.2.1 .NoDevice (Or.inl rfl)⟩

/-- Claim C4, counterexample: with the loop marked running and the worker already
exited (its end of the cancellation one-shot dropped), `stop_streaming_loop` returns
the `Poisoned` cancellation-send error, not success. -/
theorem claim_C4_counterexample :
    StreamHandle.is_loop_running ⟨⟨0, 0, 0, 0, 0, 0, 0⟩, true, true⟩ = true ∧
    (StreamHandle.stop_streaming_loop ⟨⟨0, 0, 0, 0, 0, 0, 0⟩, true, true⟩ true (.ok ())).1 =
      .error (.Poisoned "failed to send cancellation signal to streaming loop") ∧
    (StreamHandle.stop_streaming_loop ⟨⟨0, 0, 0, 0, 0, 0, 0⟩, true, true⟩ true (.ok ())).1 ≠
      .ok () := by
  exact ⟨rfl, rfl, fun hc => Except.noConfusion hc⟩

/-- Claim C4, amended: if the worker has already exited when `stop_streaming_loop` is
called while `is_loop_running()` is true, the call returns the `Poisoned`
"failed to send cancellation signal to streaming loop" error (both one-shot endpoints
having been taken, so `is_loop_running()` is false afterwards). -/
theorem claim_C4_amended :
    ∀ (s : StreamHandle) (completion : Except String Unit), s.is_loop_running = true →
      (s.stop_streaming_loop true completion).1 =
        .error (.Poisoned "failed to send cancellation signal to streaming loop") ∧
      ((s.stop_streaming_loop true completion).2).is_loop_running = false := by
  intro s completion h
  simp [StreamHandle.stop_streaming_loop, StreamHandle.is_loop_running] at h ⊢
  simp [h]

/-- Witness for the amended claim C4 at a concrete running handle. -/
theorem claim_C4_amended_witness :
    (StreamHandle.stop_streaming_loop ⟨⟨1, 2, 3, 4, 5, 6, 7⟩, true, true⟩ true
        (.error "oneshot canceled")).1 =
      .error (.Poisoned "failed to send cancellation signal to streaming loop") ∧
    ((StreamHandle.stop_streaming_loop ⟨⟨1, 2, 3, 4, 5, 6, 7⟩, true, true⟩ true
        (.error "oneshot canceled")).2).is_loop_running = false :=
  claim_C4_amended ⟨⟨1, 2, 3, 4, 5, 6, 7⟩, true, true⟩ (.error "oneshot canceled") rfl


/-- Claim C6: after a successful `start_streaming_loop` the loop is running; after
`stop_streaming_loop` returns (with success or error) it is not; after `close` returns
it is not; and `start`, `stop` and `close` all preserve the invariant that the
cancellation sender is present iff the completion receiver is. -/
theorem claim_C6 :
    (∀ (s : StreamHandle) (disc : Except String StreamParams),
      (s.start_streaming_loop disc).1 = .ok () →
      ((s.start_streaming_loop disc).2).is_loop_running = true) ∧
    (∀ (s : StreamHandle) (w : Bool) (c : Except String Unit),
      ((s.stop_streaming_loop w c).2).is_loop_running = false) ∧
    (∀ (s : StreamHandle) (w : Bool) (c : Except String Unit) (ic : Except StreamError Unit),
      ((s.close w c ic).2).is_loop_running = false) ∧
    (∀ (s : StreamHandle) (disc : Except String StreamParams),
      s.signalInvariant → ((s.start_streaming_loop disc).2).signalInvariant) ∧
    (∀ (s : StreamHandle) (w : Bool) (c : Except String Unit),
      s.signalInvariant → ((s.stop_streaming_loop w c).2).signalInvariant) ∧
    (∀ (s : StreamHandle) (w : Bool) (c : Except String Unit) (ic : Except StreamError Unit),
      s.signalInvariant → ((s.close w c ic).2).signalInvariant) := by
  have hstop : ∀ (s : StreamHandle) (w : Bool) (c : Except String Unit),
      ((s.stop_streaming_loop w c).2).is_loop_running = false := by
    intro s w c
    by_cases hr : s.completion_rx = true <;>
      cases w <;> cases c <;>
        simp [StreamHandle.stop_streaming_loop, StreamHandle.is_loop_running, hr]
  have hstopInv : ∀ (s : StreamHandle) (w : Bool) (c : Except String Unit),
      s.signalInvariant → ((s.stop_streaming_loop w c).2).signalInvariant := by
    intro s w c hs
    by_cases hr : s.completion_rx = true <;>
      cases w <;> cases c <;>
        simp [StreamHandle.stop_streaming_loop, StreamHandle.is_loop_running,
          StreamHandle.signalInvariant, hr] <;>
        simpa [StreamHandle.signalInvariant, hr] using hs
  refine ⟨?_, hstop, ?_, ?_, hstopInv, ?_⟩
  · intro s disc h
    cases disc with
    | error e => simp [StreamHandle.start_streaming_loop] at h
    | ok p =>
      by_cases hr : s.completion_rx = true
      · simp [StreamHandle.start_streaming_loop, StreamHandle.is_loop_running, hr] at h
      · simp [StreamHandle.start_streaming_loop, StreamHandle.is_loop_running, hr]
  · intro s w c ic
    by_cases hr : s.completion_rx = true
    · have h2 := hstop s w c
      cases hsp : s.stop_streaming_loop w c with
      | mk res s1 =>
        cases res <;> cases ic <;>
          simp [StreamHandle.close, StreamHandle.is_loop_running, hr, hsp] <;>
          simpa [StreamHandle.is_loop_running, hsp] using h2
    · cases ic <;>
        simp [StreamHandle.close, StreamHandle.is_loop_running, hr]
  · intro s disc hs
    cases disc with
    | error e => simpa [StreamHandle.start_streaming_loop] using hs
    | ok p =>
      by_cases hr : s.completion_rx = true
      · simp [StreamHandle.start_streaming_loop, StreamHandle.is_loop_running,
          StreamHandle.signalInvariant, hr] at hs ⊢
        exact hs
      · simp [StreamHandle.start_streaming_loop, StreamHandle.is_loop_running,
          StreamHandle.signalInvariant, hr]
  · intro s w c ic hs
    by_cases hr : s.completion_rx = true
    · have h2 := hstopInv s w c hs
      cases hsp : s.stop_streaming_loop w c with
      | mk res s1 =>
        cases res <;> cases ic <;>
          simp [StreamHandle.close, StreamHandle.is_loop_running, hr, hsp] <;>
          simpa [StreamHandle.signalInvariant, hsp] using h2
    · cases ic <;>
        simpa [StreamHandle.close, StreamHandle.is_loop_running, hr] using hs

/-- Witness for claim C6 at concrete handles: a successful start from an idle handle,
a stop and a close of a running handle, and invariant preservation across a start. -/
theorem claim_C6_witness :
    ((StreamHandle.start_streaming_loop ⟨⟨0, 0, 0, 0, 0, 0, 0⟩, false, false⟩
        (.ok ⟨1, 1, 0, 0, 0, 0, 0⟩)).2).is_loop_running = true ∧
    ((StreamHandle.stop_streaming_loop ⟨⟨0, 0, 0, 0, 0, 0, 0⟩, true, true⟩ false
        (.ok ())).2).is_loop_running = false ∧
    ((StreamHandle.close ⟨⟨0, 0, 0, 0, 0, 0, 0⟩, true, true⟩ false (.ok ())
        (.ok ())).2).is_loop_running = false ∧
    StreamHandle.signalInvariant
      ((StreamHandle.start_streaming_loop ⟨⟨0, 0, 0, 0, 0, 0, 0⟩, false, false⟩
        (.ok ⟨1, 1, 0, 0, 0, 0, 0⟩)).2) :=
  ⟨claim_C6.1 _ _ rfl, claim_C6.2.1 _ false (.ok ()), claim_C6.2.2.1 _ false (.ok ()) (.ok ()),
    claim_C6.2.2.2.1 _ _ rfl⟩

/-- Claim C8: whenever the loop is running, each of the `read_leader`, `read_payload`
and `read_trailer` handle methods fails with `InStreaming`, performs no receive on the
underlying channel, and leaves the caller's buffer unmodified. -/
theorem claim_C8 :
    ∀ (s : StreamHandle), s.is_loop_running = true →
      ∀ (buf : List Nat) (lock : Except String Unit) (chanL : Except GevError (List Nat))
        (parseL : List Nat → Except String LeaderData) (poll : Except GevError Nat)
        (data : List Nat) (chanT : Except GevError (List Nat))
        (parseT : List Nat → Except String TrailerData),
        s.read_leader buf lock chanL parseL =
          { outcome := .err .InStreaming, buf := buf, touched := false } ∧
        s.read_payload buf lock poll data =
          { outcome := .err .InStreaming, buf := buf, touched := false } ∧
        s.read_trailer buf lock chanT parseT =
          { outcome := .err .InStreaming, buf := buf, touched := false } := by
  intro s h buf lock chanL parseL poll data chanT parseT
  refine ⟨?_, ?_, ?_⟩ <;>
    simp [StreamHandle.read_leader, StreamHandle.read_payload, StreamHandle.read_trailer, h]

/-- Witness for claim C8 at a concrete running handle and buffer. -/
theorem claim_C8_witness :
    (StreamHandle.read_leader ⟨⟨4, 4, 0, 0, 0, 0, 0⟩, true, true⟩ [1, 2, 3, 4] (.ok ())
        (.ok [0, 0, 0, 0]) (fun _ => .ok ⟨.Image, 0⟩)).outcome = .err .InStreaming ∧
    (StreamHandle.read_payload ⟨⟨4, 4, 0, 0, 0, 0, 0⟩, true, true⟩ [1, 2, 3, 4] (.ok ())
        (.ok 0) []).buf = [1, 2, 3, 4] ∧
    (StreamHandle.read_trailer ⟨⟨4, 4, 0, 0, 0, 0, 0⟩, true, true⟩ [1, 2, 3, 4] (.ok ())
        (.ok [0, 0, 0, 0]) (fun _ => .ok ⟨.Success, 0⟩)).touched = false := by
  have h := claim_C8 ⟨⟨4, 4, 0, 0, 0, 0, 0⟩, true, true⟩ rfl [1, 2, 3, 4] (.ok ())
    (.ok [0, 0, 0, 0]) (fun _ => .ok ⟨.Image, 0⟩) (.ok 0) [] (.ok [0, 0, 0, 0])
    (fun _ => .ok ⟨.Success, 0⟩)
  exact ⟨by rw [h.1], by rw [h.2.1], by rw [h.2.2]⟩

/-- Claim C9: `start_streaming_loop` performs parameter discovery before the running
check — whenever discovery succeeds, `self.params` is overwritten with the discovered
parameters even when the call then fails with `InStreaming`; and a call made while the
loop is running returns the `Io` discovery error, not `InStreaming`, whenever
discovery fails. -/
theorem claim_C9 :
    (∀ (s : StreamHandle) (p : StreamParams),
      ((s.start_streaming_loop (.ok p)).2).params = p) ∧
    (∀ (s : StreamHandle) (p : StreamParams), s.is_loop_running = true →
      (s.start_streaming_loop (.ok p)).1 = .error .InStreaming) ∧
    (∀ (s : StreamHandle) (e : String), s.is_loop_running = true →
      (s.start_streaming_loop (.error e)).1 =
        .error (.Io ("failed to setup streaming parameters: " ++ e))) := by
  refine ⟨?_, ?_, ?_⟩
  · intro s p
    by_cases hr : s.completion_rx = true <;>
      simp [StreamHandle.start_streaming_loop, StreamHandle.is_loop_running, hr]
  · intro s p h
    simp [StreamHandle.start_streaming_loop, StreamHandle.is_loop_running,
      show s.completion_rx = true from h]
  · intro s e h
    rfl

/-- Witness for claim C9 at a concrete running handle: discovered parameters are
installed although the call fails with `InStreaming`, and a discovery failure while
running surfaces as `Io`. -/
theorem claim_C9_witness :
    ((StreamHandle.start_streaming_loop ⟨⟨0, 0, 0, 0, 0, 0, 0⟩, true, true⟩
        (.ok ⟨9, 8, 7, 6, 5, 4, 3⟩)).2).params = ⟨9, 8, 7, 6, 5, 4, 3⟩ ∧
    (StreamHandle.start_streaming_loop ⟨⟨0, 0, 0, 0, 0, 0, 0⟩, true, true⟩
        (.ok ⟨9, 8, 7, 6, 5, 4, 3⟩)).1 = .error .InStreaming ∧
    (StreamHandle.start_streaming_loop ⟨⟨0, 0, 0, 0, 0, 0, 0⟩, true, true⟩
        (.error "register read failed")).1 =
      .error (.Io ("failed to setup streaming parameters: " ++ "register read failed")) :=
  ⟨claim_C9.1 _ _, claim_C9.2.1 _ _ rfl, claim_C9.2.2 _ "register read failed" rfl⟩


/-! Helper lemmas: `BufferTooSmall` can only come out of the explicit length check in
`recv`; the transport-error mapping never produces it. -/

theorem streamErrorFrom_ne_bts (e : GevError) : streamErrorFrom e ≠ .BufferTooSmall := by
  cases e with
  | LibUsb u => cases u <;> simp [streamErrorFrom]
  | BufferIo => simp [streamErrorFrom]
  | InvalidPacket => simp [streamErrorFrom]
  | InvalidDevice => simp [streamErrorFrom]

theorem recv_bts_iff (buf : List Nat) (len : Nat) (chan : Except GevError (List Nat)) :
    (recv buf len chan).outcome = .err .BufferTooSmall ↔ (len ≠ 0 ∧ buf.length < len) := by
  unfold recv
  by_cases h0 : len = 0
  · simp [h0]
  · by_cases hlt : buf.length < len
    · simp [h0, hlt]
    · cases chan with
      | error e => simp [h0, hlt, streamErrorFrom_ne_bts e]
      | ok data => simp [h0, hlt]

theorem read_leader_no_bts (params : StreamParams) (buf : List Nat)
    (chan : Except GevError (List Nat)) (parse : List Nat → Except String LeaderData)
    (h : params.leader_size = 0 ∨ params.leader_size ≤ buf.length) :
    (read_leader params buf chan parse).outcome ≠ .err .BufferTooSmall := by
  have hrec : (recv buf params.leader_size chan).outcome ≠ .err .BufferTooSmall :=
    fun hc => by
      have hiff := (recv_bts_iff buf params.leader_size chan).mp hc
      omega
  cases hrc : (recv buf params.leader_size chan).outcome with
  | panic => simp [Cameleon.read_leader, hrc]
  | err e =>
    simp [Cameleon.read_leader, hrc]
    intro hc
    exact hrec (by rw [hrc, hc])
  | ok n =>
    cases hp : parse (recv buf params.leader_size chan).buf with
    | ok l => simp [Cameleon.read_leader, hrc, hp]
    | error msg => simp [Cameleon.read_leader, hrc, hp]

theorem read_trailer_no_bts (params : StreamParams) (buf : List Nat)
    (chan : Except GevError (List Nat)) (parse : List Nat → Except String TrailerData)
    (h : params.trailer_size = 0 ∨ params.trailer_size ≤ buf.length) :
    (read_trailer params buf chan parse).outcome ≠ .err .BufferTooSmall := by
  have hrec : (recv buf params.trailer_size chan).outcome ≠ .err .BufferTooSmall :=
    fun hc => by
      have hiff := (recv_bts_iff buf params.trailer_size chan).mp hc
      omega
  cases hrc : (recv buf params.trailer_size chan).outcome with
  | panic => simp [Cameleon.read_trailer, hrc]
  | err e =>
    simp [Cameleon.read_trailer, hrc]
    intro hc
    exact hrec (by rw [hrc, hc])
  | ok n =>
    cases hp : parse (recv buf params.trailer_size chan).buf with
    | ok t => simp [Cameleon.read_trailer, hrc, hp]
    | error msg => simp [Cameleon.read_trailer, hrc, hp]

theorem read_payload_no_bts (params : StreamParams) (buf : List Nat)
    (poll : Except GevError Nat) (data : List Nat) :
    (read_payload params buf poll data).outcome ≠ .err .BufferTooSmall := by
  unfold Cameleon.read_payload
  by_cases hlt : buf.length < params.maximum_payload_size
  · simp [hlt]
  · cases poll with
    | error e => simp [hlt, streamErrorFrom_ne_bts e]
    | ok n => simp [hlt]

/-- Claim C2, counterexample: the worker's leader read passes the trailer-sized scratch
buffer (`vec![0; params.trailer_size]`) to `read_leader`, so for the parameters
`leader_size = 2, trailer_size = 1` it returns `BufferTooSmall`; hence it is not true
for every `StreamParams` that the worker's reads never return `BufferTooSmall`. -/
theorem claim_C2_counterexample :
    (Cameleon.read_leader ⟨2, 1, 0, 0, 0, 0, 0⟩
        (List.replicate (StreamParams.trailer_size ⟨2, 1, 0, 0, 0, 0, 0⟩) 0)
        (.ok []) (fun _ => .error "")).outcome = .err .BufferTooSmall ∧
    ¬ (∀ (p : StreamParams) (chan : Except GevError (List Nat))
        (parse : List Nat → Except String LeaderData),
        (Cameleon.read_leader p (List.replicate p.trailer_size 0) chan parse).outcome ≠
          .err .BufferTooSmall) := by
  constructor
  · rfl
  · intro h
    exact h ⟨2, 1, 0, 0, 0, 0, 0⟩ (.ok []) (fun _ => .error "") rfl

/-- Claim C2, amended: for every `StreamParams` whose leader size is zero or fits the
trailer-sized scratch buffer and whose trailer size is zero or fits the leader-sized
scratch buffer (in particular whenever `leader_size = trailer_size`), none of the
worker's leader read, payload read, or trailer read returns `BufferTooSmall`; the
payload read never returns it for any parameters and buffer at all. -/
theorem claim_C2_amended :
    ∀ (p : StreamParams),
      (p.leader_size = 0 ∨ p.leader_size ≤ p.trailer_size) →
      (p.trailer_size = 0 ∨ p.trailer_size ≤ p.leader_size) →
      ∀ (trailer_buf leader_buf payload_buf : List Nat)
        (chanL chanT : Except GevError (List Nat))
        (parseL : List Nat → Except String LeaderData)
        (parseT : List Nat → Except String TrailerData)
        (poll : Except GevError Nat) (data : List Nat),
        trailer_buf.length = p.trailer_size → leader_buf.length = p.leader_size →
        (Cameleon.read_leader p trailer_buf chanL parseL).outcome ≠ .err .BufferTooSmall ∧
        (Cameleon.read_payload p payload_buf poll data).outcome ≠ .err .BufferTooSmall ∧
        (Cameleon.read_trailer p leader_buf chanT parseT).outcome ≠ .err .BufferTooSmall := by
  intro p hL hT trailer_buf leader_buf payload_buf chanL chanT parseL parseT poll data htb hlb
  exact ⟨read_leader_no_bts p trailer_buf chanL parseL (by omega),
    read_payload_no_bts p payload_buf poll data,
    read_trailer_no_bts p leader_buf chanT parseT (by omega)⟩

/-- Witness for the amended claim C2 at concrete equal-sized parameters and buffers. -/
theorem claim_C2_amended_witness :
    (Cameleon.read_leader ⟨4, 4, 1, 1, 0, 0, 0⟩ (List.replicate 4 0) (.ok [1, 2, 3, 4])
        (fun _ => .ok ⟨.Image, 0⟩)).outcome ≠ .err .BufferTooSmall ∧
    (Cameleon.read_payload ⟨4, 4, 1, 1, 0, 0, 0⟩ (List.replicate 1 0) (.ok 1)
        [9]).outcome ≠ .err .BufferTooSmall ∧
    (Cameleon.read_trailer ⟨4, 4, 1, 1, 0, 0, 0⟩ (List.replicate 4 0) (.ok [5, 6, 7, 8])
        (fun _ => .ok ⟨.Success, 0⟩)).outcome ≠ .err .BufferTooSmall := by
  have h := claim_C2_amended ⟨4, 4, 1, 1, 0, 0, 0⟩ (Or.inr (by decide)) (Or.inr (by decide))
    (List.replicate 4 0) (List.replicate 4 0) (List.replicate 1 0)
    (.ok [1, 2, 3, 4]) (.ok [5, 6, 7, 8]) (fun _ => .ok ⟨.Image, 0⟩)
    (fun _ => .ok ⟨.Success, 0⟩) (.ok 1) [9] rfl rfl
  exact ⟨h.1, h.2.1, h.2.2⟩


/-- Claim C3, counterexample: a transient trailer-read failure (a bulk timeout, which
is not fatal) is reported to the consumer by the worker, while the very same transient
failure on the leader read is not reported; so a failed trailer read is not handled the
same way as a failed leader read.  Both paths do retain the payload buffer and
continue. -/
theorem claim_C3_counterexample :
    (runIteration ⟨1, 1, 0, 0, 0, 0, 0⟩ [0] [0] none
        ⟨false, none, .ok [7], fun _ => .ok ⟨.Image, 7⟩, .ok 0, [],
          .error (.LibUsb .Timeout), fun _ => .error "unused",
          .error "no", .error "no", .error "no", .error "no", .error "no", .error "no",
          false⟩).sentErr = some .Timeout ∧
    (runIteration ⟨1, 1, 0, 0, 0, 0, 0⟩ [0] [0] none
        ⟨false, none, .error (.LibUsb .Timeout), fun _ => .error "unused", .ok 0, [],
          .ok [7], fun _ => .ok ⟨.Success, 0⟩,
          .error "no", .error "no", .error "no", .error "no", .error "no", .error "no",
          false⟩).sentErr = none ∧
    StreamError.isFatal .Timeout = false := by
  exact ⟨rfl, rfl, rfl⟩

/-- Claim C3, amended: a failed trailer read retains the payload buffer for the next
attempt and the loop continues, like a failed leader read; but unlike the leader path —
where only fatal failures (I/O error, disconnect) are reported to the consumer — every
trailer-read failure (fatal, transient, or parse) is reported to the consumer through
the sender. -/
theorem claim_C3_amended :
    ∀ (params : StreamParams) (trailer_buf leader_buf : List Nat)
      (payload_buf_opt : Option (List Nat)) (o : WorkerOracle),
      o.cancelled = false →
      (∀ e, (Cameleon.read_leader params trailer_buf o.leaderChan o.leaderParse).outcome =
          .err e →
        runIteration params trailer_buf leader_buf payload_buf_opt o =
          ⟨false, false, some (acquireBuf params.maximum_payload_size payload_buf_opt o.recycled),
            if e.isFatal then some e else none, none⟩) ∧
      (∀ leader n e,
        (Cameleon.read_leader params trailer_buf o.leaderChan o.leaderParse).outcome =
          .ok leader →
        (Cameleon.read_payload params
            (acquireBuf params.maximum_payload_size payload_buf_opt o.recycled)
            o.payloadPoll o.payloadData).outcome = .ok n →
        (Cameleon.read_trailer params leader_buf o.trailerChan o.trailerParse).outcome =
          .err e →
        runIteration params trailer_buf leader_buf payload_buf_opt o =
          ⟨false, false,
            some (Cameleon.read_payload params
              (acquireBuf params.maximum_payload_size payload_buf_opt o.recycled)
              o.payloadPoll o.payloadData).buf,
            some e, none⟩) := by
  intro params trailer_buf leader_buf payload_buf_opt o hc
  constructor
  · intro e hL
    simp [runIteration, hc, hL]
  · intro leader n e hL hP hT
    simp [runIteration, hc, hL, hP, hT]

/-- Witness for the amended claim C3: a fatal leader failure is reported and retains
the buffer; a transient trailer failure is reported and retains the buffer. -/
theorem claim_C3_amended_witness :
    runIteration ⟨1, 1, 0, 0, 0, 0, 0⟩ [0] [0] none
      ⟨false, none, .error (.LibUsb .NoDevice), fun _ => .error "unused", .ok 0, [],
        .ok [7], fun _ => .ok ⟨.Success, 0⟩,
        .error "no", .error "no", .error "no", .error "no", .error "no", .error "no",
        false⟩ = ⟨false, false, some [], some .Disconnected, none⟩ ∧
    runIteration ⟨1, 1, 0, 0, 0, 0, 0⟩ [0] [0] none
      ⟨false, none, .ok [7], fun _ => .ok ⟨.Image, 7⟩, .ok 0, [],
        .error (.LibUsb .Timeout), fun _ => .error "unused",
        .error "no", .error "no", .error "no", .error "no", .error "no", .error "no",
        true⟩ = ⟨false, false, some [], some .Timeout, none⟩ := by
  constructor
  · exact (claim_C3_amended ⟨1, 1, 0, 0, 0, 0, 0⟩ [0] [0] none
      ⟨false, none, .error (.LibUsb .NoDevice), fun _ => .error "unused", .ok 0, [],
        .ok [7], fun _ => .ok ⟨.Success, 0⟩,
        .error "no", .error "no", .error "no", .error "no", .error "no", .error "no",
        false⟩ rfl).1 .Disconnected rfl
  · exact (claim_C3_amended ⟨1, 1, 0, 0, 0, 0, 0⟩ [0] [0] none
      ⟨false, none, .ok [7], fun _ => .ok ⟨.Image, 7⟩, .ok 0, [],
        .error (.LibUsb .Timeout), fun _ => .error "unused",
        .error "no", .error "no", .error "no", .error "no", .error "no", .error "no",
        true⟩ rfl).2 ⟨.Image, 7⟩ 0 .Timeout rfl rfl rfl

/-- Claim C5: `build` validates `payload_status == Success` and
`valid_payload_size ≤ read_payload_size` before dispatching on the payload type; a
block whose trailer claims more bytes than were read is rejected with an
`InvalidPayload` whose message names the expected and actually-read sizes; at the
worker level that error is sent to the consumer and the loop does not break. -/
theorem claim_C5 :
    (∀ b : PayloadBuilder, b.payload_status ≠ .Success →
      b.build = .err (.InvalidPayload
        ("trailer status indicates error: " ++ b.payload_status.debugFmt))) ∧
    (∀ b : PayloadBuilder, b.payload_status = .Success →
      b.read_payload_size < b.valid_payload_size →
      b.build = .err (.InvalidPayload
        ("the actual read payload size is smaller than the size specified in the trailer: expected "
          ++ toString b.valid_payload_size ++ ", but got " ++ toString b.read_payload_size))) ∧
    (∀ (params : StreamParams) (trailer_buf leader_buf : List Nat)
        (payload_buf_opt : Option (List Nat)) (o : WorkerOracle) (leader : LeaderData)
        (n : Nat) (trailer : TrailerData),
      o.cancelled = false →
      (Cameleon.read_leader params trailer_buf o.leaderChan o.leaderParse).outcome =
        .ok leader →
      (Cameleon.read_payload params
          (acquireBuf params.maximum_payload_size payload_buf_opt o.recycled)
          o.payloadPoll o.payloadData).outcome = .ok n →
      (Cameleon.read_trailer params leader_buf o.trailerChan o.trailerParse).outcome =
        .ok trailer →
      trailer.payload_status = .Success → n < trailer.valid_payload_size →
      runIteration params trailer_buf leader_buf payload_buf_opt o =
        ⟨false, false, none,
          some (.InvalidPayload
            ("the actual read payload size is smaller than the size specified in the trailer: expected "
              ++ toString trailer.valid_payload_size ++ ", but got " ++ toString n)),
          none⟩) := by
  refine ⟨?_, ?_, ?_⟩
  · intro b h
    simp [PayloadBuilder.build, h]
  · intro b hs hlt
    simp [PayloadBuilder.build, hs, hlt, Nat.not_lt.mpr (Nat.le_of_lt hlt)]
  · intro params trailer_buf leader_buf payload_buf_opt o leader n trailer hc hL hP hT hst hlt
    simp [runIteration, hc, hL, hP, hT, mkBuilder, PayloadBuilder.build, hst, hlt]

/-- Witness for claim C5: the S2 scenario sizes — a trailer claiming 10000000 bytes
when 614400 were read — produce exactly the quoted message, at the builder level and
at the worker level; and a non-success status is rejected with the status message. -/
theorem claim_C5_witness :
    PayloadBuilder.build ⟨.Image, 1, .Success, 10000000, 614400, [],
        .error "a", .error "a", .error "a", .error "a", .error "a", .error "a"⟩ =
      .err (.InvalidPayload
        "the actual read payload size is smaller than the size specified in the trailer: expected 10000000, but got 614400") ∧
    PayloadBuilder.build ⟨.Image, 1, .Error 3, 0, 0, [],
        .error "a", .error "a", .error "a", .error "a", .error "a", .error "a"⟩ =
      .err (.InvalidPayload "trailer status indicates error: Error(3)") ∧
    runIteration ⟨1, 1, 0, 0, 0, 0, 0⟩ [0] [0] none
      ⟨false, none, .ok [7], fun _ => .ok ⟨.Image, 7⟩, .ok 614400, [],
        .ok [7], fun _ => .ok ⟨.Success, 10000000⟩,
        .error "no", .error "no", .error "no", .error "no", .error "no", .error "no",
        true⟩ =
      ⟨false, false, none,
        some (.InvalidPayload
          "the actual read payload size is smaller than the size specified in the trailer: expected 10000000, but got 614400"),
        none⟩ := by
  refine ⟨claim_C5.2.1 _ rfl (by decide), claim_C5.1 _ (by decide), ?_⟩
  exact claim_C5.2.2 ⟨1, 1, 0, 0, 0, 0, 0⟩ [0] [0] none
    ⟨false, none, .ok [7], fun _ => .ok ⟨.Image, 7⟩, .ok 614400, [],
      .ok [7], fun _ => .ok ⟨.Success, 10000000⟩,
      .error "no", .error "no", .error "no", .error "no", .error "no", .error "no",
      true⟩ ⟨.Image, 7⟩ 614400 ⟨.Success, 10000000⟩ rfl rfl rfl rfl rfl (by decide)

end Cameleon
